import Mathlib

/-!
# Verification of the capstone immigration ETL pipeline

Shallow embedding of the Spark/Python cleaning pipeline from
`6_capstone_project/capstone_project_guide.ipynb`, together with the pieces of
the CPython `datetime` module that the notebook calls into
(`date(1960, 1, 1) + timedelta(x)` and `date.isoformat`).

Conventions:
* Machine floats in the source data (`i94res`, `i94mode`, `i94bir`, ...) only
  ever carry whole numbers when they are used as categorical codes, so they are
  embedded as `Int` (wrapped in `Option` for nullable columns).
* Python exceptions are embedded with `Except PyErr`.
* Reference catalogs (parsed out of the external SAS labels text file, which is
  not part of the repository) are passed in explicitly as association lists in
  insertion order, matching Python dict iteration order.
-/

namespace Capstone

/-- Python exception kinds that the embedded code can raise. -/
inductive PyErr where
  | typeError
  | valueError
  | keyError
  | attributeError
  | overflowError
deriving DecidableEq, Repr

/-! ## CPython `datetime` internals

The notebook computes `(datetime(1960, 1, 1).date() + timedelta(x)).isoformat()`.
In CPython, `date.__add__` computes `o = self.toordinal() + timedelta.days` and
returns `date.fromordinal(o)` when `0 < o <= _MAXORDINAL`, raising
`OverflowError` otherwise.  The functions below embed `_is_leap`,
`_days_before_year`, `_days_before_month`, `_days_in_month`, `_ymd2ord` and
`_ord2ymd` from CPython `Lib/datetime.py`.
-/

/-- CPython `_is_leap`: `year % 4 == 0 and (year % 100 != 0 or year % 400 == 0)`. -/
def is_leap (y : Nat) : Bool :=
  y % 4 == 0 && (y % 100 != 0 || y % 400 == 0)

/-- CPython `_DAYS_IN_MONTH` (index 0 is a placeholder, never read in range;
CPython stores `-1` there, we store `0`). -/
def DAYS_IN_MONTH : List Nat :=
  [0, 31, 28, 31, 30, 31, 30, 31, 31, 30, 31, 30, 31]

/-- CPython `_DAYS_BEFORE_MONTH` (index 0 is a placeholder). -/
def DAYS_BEFORE_MONTH : List Nat :=
  [0, 0, 31, 59, 90, 120, 151, 181, 212, 243, 273, 304, 334]

/-- CPython `_days_in_month(year, month)`. -/
def days_in_month (y m : Nat) : Nat :=
  DAYS_IN_MONTH.getD m 0 + (if m = 2 ∧ is_leap y then 1 else 0)

/-- CPython `_days_before_month(year, month)`. -/
def days_before_month (y m : Nat) : Nat :=
  DAYS_BEFORE_MONTH.getD m 0 + (if 2 < m ∧ is_leap y then 1 else 0)

/-- CPython `_days_before_year(year)`: number of days before January 1st of
`year` in the proleptic Gregorian calendar. -/
def days_before_year (y : Nat) : Nat :=
  (y - 1) * 365 + (y - 1) / 4 - (y - 1) / 100 + (y - 1) / 400

/-- CPython `_ymd2ord(year, month, day)`: proleptic Gregorian ordinal,
with 0001-01-01 having ordinal 1. -/
def ymd2ord (y m d : Nat) : Nat :=
  days_before_year y + days_before_month y m + d

/-- CPython `_MAXORDINAL = _ymd2ord(9999, 12, 31)`. -/
def MAXORDINAL : Nat := ymd2ord 9999 12 31

/-- The month/day search at the end of CPython `_ord2ymd`, factored out:
given the 0-based day index `n` inside the year and the year's leap flag,
estimate `month = (n + 50) >> 5` and correct it by one if the estimate
overshoots. -/
def month_day_of (n : Nat) (leap : Bool) : Nat × Nat :=
  let month := (n + 50) / 32
  let preceding := DAYS_BEFORE_MONTH.getD month 0 + (if 2 < month ∧ leap then 1 else 0)
  if n < preceding then
    let month' := month - 1
    let preceding' :=
      preceding - (DAYS_IN_MONTH.getD month' 0 + (if month' = 2 ∧ leap then 1 else 0))
    (month', n - preceding' + 1)
  else
    (month, n - preceding + 1)

/-- CPython `_ord2ymd(n)`: inverse of `ymd2ord`, via 400/100/4/1-year cycles. -/
def ord2ymd (N : Nat) : Nat × Nat × Nat :=
  let a := N - 1
  let n400 := a / 146097
  let r400 := a % 146097
  let n100 := r400 / 36524
  let r100 := r400 % 36524
  let n4 := r100 / 1461
  let r4 := r100 % 1461
  let n1 := r4 / 365
  let r := r4 % 365
  let year := n400 * 400 + 1 + (n100 * 100 + n4 * 4 + n1)
  if n1 = 4 ∨ n100 = 4 then
    (year - 1, 12, 31)
  else
    let leap := n1 == 3 && (n4 != 24 || n100 == 3)
    ((year, (month_day_of r leap).1, (month_day_of r leap).2) : Nat × Nat × Nat)

/-- Zero-padding to two digits, as in the `%02d` of CPython `date.isoformat`. -/
def pad2 (n : Nat) : String :=
  if n < 10 then "0" ++ toString n else toString n

/-- Zero-padding to four digits, as in the `%04d` of CPython `date.isoformat`. -/
def pad4 (n : Nat) : String :=
  if n < 10 then "000" ++ toString n
  else if n < 100 then "00" ++ toString n
  else if n < 1000 then "0" ++ toString n
  else toString n

/-- CPython `date.isoformat`: `"%04d-%02d-%02d" % (year, month, day)`. -/
def isoformat (y m d : Nat) : String :=
  pad4 y ++ "-" ++ pad2 m ++ "-" ++ pad2 d

/-- `convert_to_datetime` from the notebook:
```
@udf(StringType())
def convert_to_datetime(x):
    if x:
        return (datetime(1960, 1, 1).date() + timedelta(x)).isoformat()
    return None
```
`if x:` is false for both `None` and `0`; `date.__add__` raises
`OverflowError` when the resulting ordinal leaves `[1, MAXORDINAL]`. -/
def convert_to_datetime (x : Option Int) : Except PyErr (Option String) :=
  match x with
  | none => .ok none
  | some d =>
    if d = 0 then .ok none
    else
      let o : Int := (ymd2ord 1960 1 1 : Int) + d
      if 1 ≤ o ∧ o ≤ (MAXORDINAL : Int) then
        .ok (some (isoformat (ord2ymd o.toNat).1 (ord2ymd o.toNat).2.1 (ord2ymd o.toNat).2.2))
      else
        .error .overflowError

/-! ## Python runtime values for the country normalizer

`get_valid_country` calls `int(x)` on its raw argument and then indexes the
catalog dict with the *unconverted* `x`, so the Python dynamic type of `x`
matters.  Codes in the data are whole-valued doubles; `vFloat` carries the
integer value of such a whole float (fractional floats never occur as codes). -/

inductive PyVal where
  | vNone
  | vInt (n : Int)
  | vFloat (n : Int)
  | vStr (s : String)
deriving DecidableEq, Repr

/-- Python `int(x)`: `TypeError` on `None`, numeric conversion for `int` and
(whole) `float`, decimal parse for `str` with `ValueError` on failure. -/
def py_int : PyVal → Except PyErr Int
  | .vNone => .error .typeError
  | .vInt n => .ok n
  | .vFloat n => .ok n
  | .vStr s =>
    match s.toInt? with
    | some n => .ok n
    | none => .error .valueError

/-- Indexing an int-keyed Python dict with a raw value: an `int` or whole
`float` key hits the entry with the equal integer key (`117.0 == 117` in
Python); a `str` or `None` never equals an int key, giving `KeyError`. -/
def py_dict_get_int (cat : List (Int × String)) : PyVal → Except PyErr String
  | .vInt n =>
    match List.lookup n cat with
    | some v => .ok v
    | none => .error .keyError
  | .vFloat n =>
    match List.lookup n cat with
    | some v => .ok v
    | none => .error .keyError
  | _ => .error .keyError

/-- `get_valid_country` from the notebook (catalog passed explicitly):
```
@udf(StringType())
def get_valid_country(x):
    if int(x) in valid_countries.keys():
        return valid_countries[x]
    else:
        return "Other"
```
-/
def get_valid_country (cat : List (Int × String)) (x : PyVal) : Except PyErr String := do
  let n ← py_int x
  if (cat.map Prod.fst).contains n then
    py_dict_get_int cat x
  else
    pure "Other"

/-- `get_valid_port` from the notebook (catalog passed explicitly):
```
@udf(StringType())
def get_valid_port(x):
    if x in valid_ports.keys():
        return x
    else:
        return "Other"
```
A null value is not a key of the catalog, so it maps to `"Other"`. -/
def get_valid_port (ports : List (String × String)) (x : Option String) : String :=
  match x with
  | some s => if (ports.map Prod.fst).contains s then s else "Other"
  | none => "Other"

/-- `convert_mode` from the notebook: dict `{1.0: Air, 2.0: Sea, 3.0: Land,
9.0: Not reported}` with default `"Not reported"` (null is not a key). -/
def convert_mode (x : Option Int) : String :=
  match x with
  | some 1 => "Air"
  | some 2 => "Sea"
  | some 3 => "Land"
  | some 9 => "Not reported"
  | _ => "Not reported"

/-- `convert_visa` from the notebook: dict `{1: Business, 2: Pleasure,
3: Student}` with default `"Unknown"`. -/
def convert_visa (x : Option Int) : String :=
  match x with
  | some 1 => "Business"
  | some 2 => "Pleasure"
  | some 3 => "Student"
  | _ => "Unknown"

/-! ## The record cleaning stage (`immigration_df_clean`) -/

/-- The raw immigration dataframe columns used by the cleaning cell.
Whole-valued double columns are embedded as `Option Int`. -/
structure RawRecord where
  cicid : Option Int
  i94yr : Option Int
  i94mon : Option Int
  i94res : Option Int
  i94port : Option String
  arrdate : Option Int
  i94mode : Option Int
  i94addr : Option String
  depdate : Option Int
  i94bir : Option Int
  i94visa : Option Int
  gender : Option String
  airline : Option String
  fltno : Option String
  visatype : Option String
deriving DecidableEq, Repr

/-- The columns kept by the `.select(...)` of the cleaning cell, in source
order.  Note that `departure_date` is computed by a `withColumn` but is *not*
in the select list, so it is absent from the cleaned table. -/
structure CleanedRecord where
  immigration_id : Option Int
  immigration_year : Option Int
  immigration_month : Option Int
  origin_country : String
  arrival_port : String
  arrival_date : Option String
  port_type : String
  state_of_residence : Option String
  immigrant_age : Option Int
  visitor_type : String
  airline_code : Option String
  airline_flight_number : Option String
  visa_type : Option String
  gender : Option String
deriving DecidableEq, Repr

/-- How a nullable whole-double column reaches a UDF: null becomes `None`,
a value such as `117.0` becomes a Python float. -/
def py_of_num : Option Int → PyVal
  | none => .vNone
  | some n => .vFloat n

/-- The per-record work of the `immigration_df_clean` cell: the
`withColumnRenamed`/`withColumn` chain followed by the `.select(...)`.
UDF exceptions (from `get_valid_country` on a null country code, or an
out-of-range date offset) propagate and abort the job. -/
def cleanRecord (ports : List (String × String)) (countries : List (Int × String))
    (r : RawRecord) : Except PyErr CleanedRecord := do
  let origin ← get_valid_country countries (py_of_num r.i94res)
  let arrival ← convert_to_datetime r.arrdate
  let _departure ← convert_to_datetime r.depdate
  pure
    { immigration_id := r.cicid
      immigration_year := r.i94yr
      immigration_month := r.i94mon
      origin_country := origin
      arrival_port := get_valid_port ports r.i94port
      arrival_date := arrival
      port_type := convert_mode r.i94mode
      state_of_residence := r.i94addr
      immigrant_age := r.i94bir
      visitor_type := convert_visa r.i94visa
      airline_code := r.airline
      airline_flight_number := r.fltno
      visa_type := r.visatype
      gender := r.gender }

/-- The full cleaning stage: per-record conversion and select, then the
notebook's filter, which is written `.filter("arrival_port='Air'")` — it
compares the `arrival_port` column (a port code) with the string `"Air"`. -/
def immigration_df_clean (ports : List (String × String))
    (countries : List (Int × String)) (rows : List RawRecord) :
    Except PyErr (List CleanedRecord) := do
  let cleaned ← rows.mapM (cleanRecord ports countries)
  pure (cleaned.filter (fun c => c.arrival_port == "Air"))

/-- The notebook's null policy:
```
immigration_df_clean.fillna({'immigrant_age' : -1, 'state_of_residence' : 'unknown'
                             , 'airline_code' : 'Unkown'
                             , 'airline_flight_number' : 'Unknown', 'gender' : 'X'})
```
(the airline_code replacement string is spelled `'Unkown'` in the source). -/
def fillna_immigration (c : CleanedRecord) : CleanedRecord :=
  { c with
    immigrant_age := some (c.immigrant_age.getD (-1))
    state_of_residence := some (c.state_of_residence.getD "unknown")
    airline_code := some (c.airline_code.getD "Unkown")
    airline_flight_number := some (c.airline_flight_number.getD "Unknown")
    gender := some (c.gender.getD "X") }

/-- The surrogate key stage:
`select row_number() over (order by "immigration_id") as immigrant_id, *`.
The window orders by a constant string literal, so the row order is an
arbitrary ordering of the input; `row_number` then numbers the rows 1, 2, ... -/
def assign_immigrant_ids (rows : List CleanedRecord) : List (Nat × CleanedRecord) :=
  rows.enum.map (fun p => (p.1 + 1, p.2))

/-! ## The catalog parser (`get_valid_airport_list`) -/

/-- Truthiness of a Python string: nonempty strings are truthy. -/
def py_truthy (s : String) : Bool := s != ""

/-- Substring test, Python `needle in hay`: some contiguous run of `hay`
starts with `needle`. -/
def str_contains (hay needle : String) : Bool :=
  hay.data.tails.any (fun t => needle.data.isPrefixOf t)

/-- The condition of the notebook's
`if 'UNKNOWN' or 'UNIDENTIFIED' or 'NOT REPORTED' in results.group(2):`.
Python evaluates the `or` chain left to right by truthiness, so the literal
`'UNKNOWN'` short-circuits it to a truthy value for every `g2`. -/
def unknown_label_cond (g2 : String) : Bool :=
  if py_truthy "UNKNOWN" then true
  else if py_truthy "UNIDENTIFIED" then true
  else str_contains g2 "NOT REPORTED"

/-- `re.sub("(\s+)", "", s)`: remove all whitespace. -/
def strip_whitespace (s : String) : String :=
  String.mk (s.data.filter (fun c => !c.isWhitespace))

/-- Python dict assignment `d[k] = v` on an insertion-ordered assoc list:
overwrite in place if the key exists, else append. -/
def dict_set (d : List (String × String)) (k v : String) : List (String × String) :=
  if d.any (fun e => e.1 == k) then
    d.map (fun e => match e.1 == k with | true => (k, v) | false => e)
  else
    d ++ [(k, v)]

/-- The accumulation loop of `get_valid_airport_list`, over the regex match
groups `(g1, g2)` of the port lines:
```
for line in lines[302:893]:
    results = re_compiled.search(line)
    if 'UNKNOWN' or 'UNIDENTIFIED' or 'NOT REPORTED' in results.group(2):
        pass
    valid_airports[results.group(1)] = re.sub("(\s+)", "", results.group(2))
```
The `if ...: pass` evaluates its condition and does nothing, so every matched
entry is stored.  The loop body is factored out as `airport_step`. -/
def airport_step (d : List (String × String)) (e : String × String) :
    List (String × String) :=
  let d := if unknown_label_cond e.2 then d else d
  dict_set d e.1 (strip_whitespace e.2)

/-- The accumulation loop of `get_valid_airport_list` over the matched lines. -/
def get_valid_airport_list (entries : List (String × String)) : List (String × String) :=
  entries.foldl airport_step []

/-! ## The demographics port resolver (`city_to_port`) -/

/-- Python `str.lower()` (ASCII range; catalog labels and city names are
ASCII). -/
def py_lower (s : String) : String :=
  String.mk (s.data.map Char.toLower)

/-- The match test of `city_to_port`: `city.lower() in valid_ports[key].lower()`. -/
def matches_city (city : String) (e : String × String) : Bool :=
  str_contains (py_lower e.2) (py_lower city)

/-- `city_to_port` from the notebook:
```
@udf(StringType())
def city_to_port(city):
    for key in valid_ports:
        if city.lower() in valid_ports[key].lower():
            return key
```
Each loop iteration evaluates `city.lower()`, so a null city raises
`AttributeError` (from `None.lower()`) on the first iteration — but only if
there is one: on an empty catalog the loop body never runs.  Falling off the
end of the loop returns `None`. -/
def city_to_port (ports : List (String × String)) (city : Option String) :
    Except PyErr (Option String) :=
  match ports with
  | [] => .ok none
  | e :: rest =>
    match city with
    | none => .error .attributeError
    | some c =>
      match matches_city c e with
      | true => .ok (some e.1)
      | false => city_to_port rest city

/-! ## Concrete sample data

A small port catalog consistent with the facts recorded in the notebook
itself: its displayed output shows `i94port = "XXX"` surviving as
`arrival_port = "XXX"`, so the unknown/unreported placeholder entries of the
SAS labels file (such as `XXX`) are present in `valid_ports`; labels are
stored whitespace-stripped. -/
def samplePorts : List (String × String) :=
  [("ATL", "ATLANTA,GA"), ("NYC", "NEWYORK,NY"), ("WAS", "WASHINGTONDC"),
   ("XXX", "NOTREPORTED/UNKNOWN")]

/-- A small country catalog consistent with the notebook output
(code 117 decodes to ECUADOR). -/
def sampleCountries : List (Int × String) :=
  [(112, "FRANCE"), (117, "ECUADOR"), (129, "SOUTHKOREA")]

/-- The end-to-end example record of the spec:
`{i94res: 117, i94port: "XXX", arrdate: 20574, i94mode: 1.0, i94addr: null,
i94bir: 37.0, i94visa: 2, gender: null}`. -/
def c2_record : RawRecord :=
  { cicid := some 6, i94yr := some 2016, i94mon := some 4, i94res := some 117,
    i94port := some "XXX", arrdate := some 20574, i94mode := some 1,
    i94addr := none, depdate := none, i94bir := some 37, i94visa := some 2,
    gender := none, airline := none, fltno := none, visatype := some "B2" }

/-- A mixed input whose transport-mode codes are 1, 2, 3, 9 and null,
all on ordinary catalog ports. -/
def mixed_modes_input : List RawRecord :=
  [{ c2_record with i94port := some "ATL", i94mode := some 1 },
   { c2_record with i94port := some "NYC", i94mode := some 2 },
   { c2_record with i94port := some "WAS", i94mode := some 3 },
   { c2_record with i94port := some "ATL", i94mode := some 9 },
   { c2_record with i94port := some "NYC", i94mode := none }]

/-- A post-filter cleaned record in which every nullable policy field is null. -/
def all_null_cleaned : CleanedRecord :=
  { immigration_id := some 6, immigration_year := some 2016,
    immigration_month := some 4, origin_country := "ECUADOR",
    arrival_port := "XXX", arrival_date := some "2016-04-30",
    port_type := "Air", state_of_residence := none, immigrant_age := none,
    visitor_type := "Pleasure", airline_code := none,
    airline_flight_number := none, visa_type := some "B2", gender := none }

/-! ## Helper lemmas -/

/-- The membership test `x in d.keys()` agrees with association-list lookup. -/
theorem lookup_isSome_eq_contains (cat : List (Int × String)) (n : Int) :
    (List.lookup n cat).isSome = (cat.map Prod.fst).contains n := by
  induction cat with
  | nil => rfl
  | cons hd tl ih =>
    obtain ⟨k, v⟩ := hd
    simp only [List.lookup, List.map_cons, List.contains_cons]
    by_cases h : n = k
    · subst h; simp
    · have hbeq : (n == k) = false := beq_eq_false_iff_ne.mpr h
      simp only [hbeq, Bool.false_or]
      exact ih

/-! ## C1: the air-arrival filter -/

/-- **C1.** The claim states that after the cleaning stage every emitted record
has `port_type = "Air"` and that, on a mixed input of transport-mode codes
{1, 2, 3, 9, null}, the number of emitted records equals the number of
`mode == 1` inputs.  The code instead filters on `arrival_port = 'Air'` —
`arrival_port` holds a port *code* (or `"Other"`), never the transport-mode
label `"Air"` — so on the mixed input, which contains exactly one `mode == 1`
record, the stage emits zero records.  This contradicts the repository's own
data dictionary ("port_type: always 'Air' since we filter immigrant on airport
arrivals only") and the notebook's displayed output, which retains air-mode
records with ports `ATL`, `NYC`, `WAS`. -/
theorem filter_drops_air_mode_records :
    immigration_df_clean samplePorts sampleCountries mixed_modes_input = .ok [] ∧
      mixed_modes_input.countP (fun r => r.i94mode == some 1) = 1 :=
  ⟨rfl, rfl⟩

/-! ## C2: the end-to-end example record -/

/-- **C2, counterexample.** On the spec's example input record the cleaning
pipeline does not emit exactly one cleaned record: the filter
`arrival_port='Air'` drops the record (its `arrival_port` is `"XXX"`), so the
output is empty. -/
theorem end_to_end_example_fails :
    ¬ ∃ c : CleanedRecord,
      immigration_df_clean samplePorts sampleCountries [c2_record] = .ok [c] := by
  rintro ⟨c, h⟩
  rw [show immigration_df_clean samplePorts sampleCountries [c2_record] = .ok [] from rfl]
    at h
  simp at h

/-- **C2, amended.** What the code actually does with the example record: the
conversion/select stage (with the null policy applied to its result) produces
`origin_country = "ECUADOR"`, `arrival_port = "XXX"` (the unknown-port entry is
retained in the catalog, so the code is passed through, not defaulted to
`"Other"`), `arrival_date = "2016-04-30"` (1960-01-01 plus 20574 days; the
spec's `"2016-04-29"` is off by one), `port_type = "Air"`,
`state_of_residence = "unknown"`, `immigrant_age = 37`,
`visitor_type = "Pleasure"`, `gender = "X"` — and the filter
`arrival_port='Air'` then drops the record, so the pipeline emits nothing. -/
theorem end_to_end_example_amended :
    (cleanRecord samplePorts sampleCountries c2_record).map fillna_immigration =
        .ok
          { immigration_id := some 6, immigration_year := some 2016,
            immigration_month := some 4, origin_country := "ECUADOR",
            arrival_port := "XXX", arrival_date := some "2016-04-30",
            port_type := "Air", state_of_residence := some "unknown",
            immigrant_age := some 37, visitor_type := "Pleasure",
            airline_code := some "Unkown",
            airline_flight_number := some "Unknown", visa_type := some "B2",
            gender := some "X" } ∧
      immigration_df_clean samplePorts sampleCountries [c2_record] = .ok [] :=
  ⟨rfl, rfl⟩

/-! ## C3: surrogate key density -/

/-- **C3.** `row_number()` over the (arbitrarily ordered) filtered set assigns
`immigrant_id` values that are exactly the list `[1, ..., N]` for `N` input
rows: unique, non-null, dense, starting at 1, with no gaps — independently of
the row order the constant `order by "immigration_id"` expression produces. -/
theorem surrogate_keys_dense (rows : List CleanedRecord) :
    (assign_immigrant_ids rows).map Prod.fst = List.range' 1 rows.length := by
  unfold assign_immigrant_ids
  rw [List.map_map, List.range'_eq_map_range]
  have h1 : (Prod.fst ∘ fun p : Nat × CleanedRecord => (p.1 + 1, p.2)) =
      (fun n => n + 1) ∘ Prod.fst := rfl
  rw [h1, ← List.map_map]
  simp [Nat.add_comm]

/-! ## C5: the epoch example -/

/-- **C5, counterexample.** The claim states `normalize_date(0)` returns
`"1960-01-01"`.  In the code `if x:` is false for the offset `0` (Python zero
is falsy), so the function returns null, not the epoch string. -/
theorem date_zero_offset_is_null :
    convert_to_datetime (some 0) = .ok none ∧
      convert_to_datetime (some 0) ≠ .ok (some "1960-01-01") :=
  ⟨rfl, by
    intro h
    rw [show convert_to_datetime (some 0) = .ok none from rfl] at h
    simp at h⟩

/-- **C5, amended.** A zero day offset yields null (it falls into the same
falsy branch as null), and a null offset yields null. -/
theorem date_zero_and_null_offsets :
    convert_to_datetime (some 0) = .ok none ∧ convert_to_datetime none = .ok none :=
  ⟨rfl, rfl⟩

/-! ## C6: totality of the country normalizer -/

/-- **C6, counterexample.** `get_valid_country` is not total: on a null raw
value, `int(None)` raises `TypeError` before any catalog check. -/
theorem country_normalizer_throws_on_null :
    get_valid_country sampleCountries .vNone = .error .typeError := rfl

/-- **C6, amended.** `get_valid_country` is total on numeric raw values: for
every int-typed or (whole) float-typed code it returns without throwing,
yielding the catalog's country name when the code is mapped and the literal
`"Other"` when it is not.  Applied to null it raises `TypeError` instead. -/
theorem country_normalizer_total_on_numbers (cat : List (Int × String)) (n : Int) :
    get_valid_country cat (.vInt n) = .ok ((List.lookup n cat).getD "Other") ∧
      get_valid_country cat (.vFloat n) = .ok ((List.lookup n cat).getD "Other") ∧
      get_valid_country cat .vNone = .error .typeError := by
  refine ⟨?_, ?_, rfl⟩ <;>
  · show (if (cat.map Prod.fst).contains n then py_dict_get_int cat _ else pure "Other") =
      .ok ((List.lookup n cat).getD "Other")
    rcases h : List.lookup n cat with - | v <;>
      rw [← lookup_isSome_eq_contains, h] <;> simp [py_dict_get_int, h, pure, Except.pure]

/-! ## C7: the null policy -/

/-- **C7.** The per-field defaults of the null policy, evaluated on a record
with every fillable field null: `state_of_residence` becomes `"unknown"`,
`immigrant_age` becomes `-1`, `airline_flight_number` becomes `"Unknown"`,
`gender` becomes `"X"`, and re-applying the policy changes nothing (non-null
values are left unchanged) — but a missing `airline_code` becomes the
misspelled string `"Unkown"`, not the `"Unknown"` stated by the claim, the
notebook's own narrative cell and the data dictionary. -/
theorem fillna_defaults_eval :
    fillna_immigration all_null_cleaned =
        { all_null_cleaned with
          state_of_residence := some "unknown", immigrant_age := some (-1),
          airline_code := some "Unkown", airline_flight_number := some "Unknown",
          gender := some "X" } ∧
      fillna_immigration (fillna_immigration all_null_cleaned) =
        fillna_immigration all_null_cleaned ∧
      (fillna_immigration all_null_cleaned).airline_code ≠ some "Unknown" :=
  ⟨rfl, rfl, by simp [fillna_immigration, all_null_cleaned]⟩

/-! ## C8: the catalog parser retains unknown-labeled entries -/

/-- Overwriting the entries holding key `k` yields a dict that has key `k`
exactly when some original entry held it. -/
theorem lookup_map_set_isSome (d : List (String × String)) (k v : String) :
    (List.lookup k
        (d.map (fun e => match e.1 == k with | true => (k, v) | false => e))).isSome =
      d.any (fun e => e.1 == k) := by
  induction d with
  | nil => rfl
  | cons e t ih =>
    obtain ⟨k1, v1⟩ := e
    by_cases h : k1 = k
    · subst h
      simp [List.lookup]
    · have h1 : (k1 == k) = false := beq_eq_false_iff_ne.mpr h
      have h2 : (k == k1) = false := beq_eq_false_iff_ne.mpr (fun hh => h hh.symm)
      simp only [List.map_cons, List.any_cons, h1, List.lookup, h2, Bool.false_or]
      exact ih

/-- Overwriting the entries holding a *different* key `k'` does not change
whether key `k` is present. -/
theorem lookup_map_set_other_isSome (d : List (String × String)) (k k' v : String)
    (hkk : (k == k') = false) :
    (List.lookup k
        (d.map (fun e => match e.1 == k' with | true => (k', v) | false => e))).isSome =
      (List.lookup k d).isSome := by
  induction d with
  | nil => rfl
  | cons e t ih =>
    obtain ⟨k1, v1⟩ := e
    by_cases h1 : k1 = k'
    · subst h1
      simp only [List.map_cons, beq_self_eq_true, List.lookup, hkk]
      exact ih
    · have h1f : (k1 == k') = false := beq_eq_false_iff_ne.mpr h1
      simp only [List.map_cons, h1f, List.lookup]
      cases hx : k == k1
      · exact ih
      · rfl

/-- Appending a fresh `(k, v)` entry makes key `k` present. -/
theorem lookup_append_single_isSome (d : List (String × String)) (k v : String) :
    (List.lookup k (d ++ [(k, v)])).isSome = true := by
  induction d with
  | nil => simp [List.lookup]
  | cons e t ih =>
    obtain ⟨k1, v1⟩ := e
    by_cases h : k = k1
    · have ht : (k == k1) = true := beq_iff_eq.mpr h
      simp [List.lookup, ht]
    · have hf : (k == k1) = false := beq_eq_false_iff_ne.mpr h
      simp only [List.cons_append, List.lookup, hf]
      exact ih

/-- A key found in `d` is still found in `d ++ l`. -/
theorem lookup_append_left_isSome (d l : List (String × String)) (k : String)
    (h : (List.lookup k d).isSome = true) :
    (List.lookup k (d ++ l)).isSome = true := by
  induction d with
  | nil => cases h
  | cons e t ih =>
    obtain ⟨k1, v1⟩ := e
    cases hx : k == k1
    · simp only [List.lookup, hx] at h
      simp only [List.cons_append, List.lookup, hx]
      exact ih h
    · simp [List.lookup, hx]

/-- `d[k] = v` makes key `k` present. -/
theorem lookup_dict_set_self (d : List (String × String)) (k v : String) :
    (List.lookup k (dict_set d k v)).isSome = true := by
  unfold dict_set
  split
  · next h => rw [lookup_map_set_isSome]; exact h
  · exact lookup_append_single_isSome d k v

/-- `d[k'] = v` keeps every key that was already present. -/
theorem lookup_dict_set_mono (d : List (String × String)) (k k' v : String)
    (h : (List.lookup k d).isSome = true) :
    (List.lookup k (dict_set d k' v)).isSome = true := by
  by_cases hk : k = k'
  · subst hk; exact lookup_dict_set_self d k v
  · have hkk : (k == k') = false := beq_eq_false_iff_ne.mpr hk
    unfold dict_set
    split
    · rw [lookup_map_set_other_isSome d k k' v hkk]
      exact h
    · exact lookup_append_left_isSome d [(k', v)] k h

/-- Processing a batch of matched lines preserves existing keys and installs
a key for every processed entry. -/
theorem airport_fold_preserves (entries : List (String × String)) :
    ∀ (d : List (String × String)) (k : String),
      ((List.lookup k d).isSome = true ∨ ∃ v, (k, v) ∈ entries) →
      (List.lookup k (entries.foldl airport_step d)).isSome = true := by
  induction entries with
  | nil =>
    intro d k h
    rcases h with h | ⟨v, hv⟩
    · exact h
    · cases hv
  | cons e t ih =>
    intro d k h
    rw [List.foldl_cons]
    apply ih
    have hstep : airport_step d e = dict_set d e.1 (strip_whitespace e.2) := by
      unfold airport_step
      rw [ite_self]
    rcases h with h | ⟨v, hv⟩
    · left
      rw [hstep]
      exact lookup_dict_set_mono d k e.1 (strip_whitespace e.2) h
    · rcases List.mem_cons.mp hv with heq | hmem
      · left
        rw [hstep, ← heq]
        exact lookup_dict_set_self d k (strip_whitespace v)
      · exact Or.inr ⟨v, hmem⟩

/-- **C8.** Every port entry matched on the port lines ends up in the
code→label lookup — in particular entries whose label text signals an
unknown/unreported/invalid placeholder: the `if 'UNKNOWN' or ... : pass`
conditional excludes nothing (its body is `pass`, and its condition is the
always-truthy literal `'UNKNOWN'` anyway). -/
theorem airport_catalog_retention (entries : List (String × String)) (k v : String)
    (h : (k, v) ∈ entries) :
    (List.lookup k (get_valid_airport_list entries)).isSome = true :=
  airport_fold_preserves entries [] k (Or.inr ⟨v, h⟩)

/-- **C8, witness.** A concrete batch containing an unknown-labeled entry
(`XXX` = NOT REPORTED/UNKNOWN): the entry is classified as unknown-labeled and
is nevertheless present in the parsed lookup. -/
theorem airport_catalog_retention_witness :
    (List.lookup "XXX"
        (get_valid_airport_list
          [("ATL", "ATLANTA, GA"), ("XXX", "NOT REPORTED/UNKNOWN")])).isSome = true ∧
      unknown_label_cond "NOT REPORTED/UNKNOWN" = true :=
  ⟨airport_catalog_retention _ "XXX" "NOT REPORTED/UNKNOWN" (by simp), rfl⟩

/-! ## C9: first-match port resolution -/

/-- Splitting characterization of `List.find?`. -/
theorem find?_decomp {α : Type} (p : α → Bool) :
    ∀ (l : List α) (a : α), l.find? p = some a →
      ∃ l₁ l₂, l = l₁ ++ a :: l₂ ∧ p a = true ∧ ∀ b ∈ l₁, p b = false := by
  intro l
  induction l with
  | nil => intro a h; cases h
  | cons x t ih =>
    intro a h
    by_cases hx : p x = true
    · rw [List.find?_cons_of_pos _ hx] at h
      injection h with h
      subst h
      exact ⟨[], t, rfl, hx, by simp⟩
    · rw [List.find?_cons_of_neg _ hx] at h
      obtain ⟨l₁, l₂, rfl, hp, hall⟩ := ih a h
      refine ⟨x :: l₁, l₂, rfl, hp, ?_⟩
      intro b hb
      rcases List.mem_cons.mp hb with rfl | hb
      · exact Bool.not_eq_true _ ▸ eq_false_of_ne_true hx
      · exact hall b hb

/-- On a non-null city the loop of `city_to_port` computes the first catalog
entry whose label matches, i.e. `List.find?` over the catalog. -/
theorem city_to_port_some_eq (ports : List (String × String)) (c : String) :
    city_to_port ports (some c) =
      .ok ((ports.find? (fun e => matches_city c e)).map Prod.fst) := by
  induction ports with
  | nil => rfl
  | cons e rest ih =>
    show (match matches_city c e with
          | true => Except.ok (some e.1)
          | false => city_to_port rest (some c)) = _
    cases h : matches_city c e
    · rw [List.find?_cons_of_neg _ (by rw [h]; exact Bool.false_ne_true)]
      exact ih
    · rw [List.find?_cons_of_pos _ h]
      rfl

/-- **C9.** For a non-null city name, `city_to_port` returns null exactly when
no catalog label contains the lowercased city as a substring, and whenever it
returns a port code `k`, `k` is the key of the *first* catalog entry (in
iteration order) whose lowercased label contains the lowercased city name — no
earlier entry matches. -/
theorem city_to_port_first_match (ports : List (String × String)) (c : String) :
    (city_to_port ports (some c) = .ok none ↔
        ∀ e ∈ ports, matches_city c e = false) ∧
      ∀ k, city_to_port ports (some c) = .ok (some k) →
        ∃ v l₁ l₂, ports = l₁ ++ (k, v) :: l₂ ∧ matches_city c (k, v) = true ∧
          ∀ e ∈ l₁, matches_city c e = false := by
  constructor
  · rw [city_to_port_some_eq]
    simp only [Except.ok.injEq, Option.map_eq_none']
    rw [List.find?_eq_none]
    constructor
    · intro h e he
      exact eq_false_of_ne_true (h e he)
    · intro h e he
      simp [h e he]
  · intro k h
    rw [city_to_port_some_eq] at h
    simp only [Except.ok.injEq] at h
    obtain ⟨e, he, hk⟩ := Option.map_eq_some'.mp h
    obtain ⟨l₁, l₂, hsplit, hp, hall⟩ := find?_decomp _ ports e he
    obtain ⟨k1, v1⟩ := e
    cases hk
    exact ⟨v1, l₁, l₂, hsplit, hp, hall⟩

/-- **C9, witness.** On the sample catalog, the city "york" resolves to the
first matching entry, `NYC` (label NEWYORK,NY). -/
theorem city_to_port_first_match_witness :
    ∃ v l₁ l₂, samplePorts = l₁ ++ ("NYC", v) :: l₂ ∧
      matches_city "york" ("NYC", v) = true ∧
      ∀ e ∈ l₁, matches_city "york" e = false :=
  (city_to_port_first_match samplePorts "york").2 "NYC" (by rfl)

/-! ## C4: the date normalizer

Correctness of the CPython calendar code: `ord2ymd` produces a valid
Gregorian calendar date whose ordinal (`ymd2ord`) is the input ordinal. -/

/-- Propositional reading of `_is_leap`. -/
theorem is_leap_iff (y : Nat) :
    is_leap y = true ↔ (y % 4 = 0 ∧ (y % 100 ≠ 0 ∨ y % 400 = 0)) := by
  simp [is_leap]

set_option maxRecDepth 8192 in
/-- The month/day estimate of `_ord2ymd` is correct for every day index of a
year: the month is in 1..12, the day is in 1..(length of that month), and the
days preceding the month plus the day reconstruct the index.  Checked by
exhausting the 365 × 2 cases. -/
theorem month_day_of_correct_fin :
    ∀ p : Fin 365 × Bool,
      1 ≤ (month_day_of p.1.val p.2).1 ∧ (month_day_of p.1.val p.2).1 ≤ 12 ∧
      1 ≤ (month_day_of p.1.val p.2).2 ∧
      (month_day_of p.1.val p.2).2 ≤
        DAYS_IN_MONTH.getD (month_day_of p.1.val p.2).1 0 +
          (if (month_day_of p.1.val p.2).1 = 2 ∧ p.2 = true then 1 else 0) ∧
      DAYS_BEFORE_MONTH.getD (month_day_of p.1.val p.2).1 0 +
          (if 2 < (month_day_of p.1.val p.2).1 ∧ p.2 = true then 1 else 0) +
          (month_day_of p.1.val p.2).2 = p.1.val + 1 := by decide

/-- `month_day_of_correct_fin`, restated for a bounded `Nat` index. -/
theorem month_day_of_correct (n : Nat) (h : n < 365) (leap : Bool) :
    1 ≤ (month_day_of n leap).1 ∧ (month_day_of n leap).1 ≤ 12 ∧
    1 ≤ (month_day_of n leap).2 ∧
    (month_day_of n leap).2 ≤
      DAYS_IN_MONTH.getD (month_day_of n leap).1 0 +
        (if (month_day_of n leap).1 = 2 ∧ leap = true then 1 else 0) ∧
    DAYS_BEFORE_MONTH.getD (month_day_of n leap).1 0 +
        (if 2 < (month_day_of n leap).1 ∧ leap = true then 1 else 0) +
        (month_day_of n leap).2 = n + 1 :=
  month_day_of_correct_fin (⟨n, h⟩, leap)

/-- `_days_before_year` on a year decomposed into 400/100/4/1-year cycles,
away from the cycle boundaries. -/
theorem days_before_year_decomp (q400 q100 q4 q1 : Nat)
    (h100 : q100 ≤ 3) (h4 : q4 ≤ 24) (h1 : q1 ≤ 3) :
    days_before_year (q400 * 400 + 1 + (q100 * 100 + q4 * 4 + q1)) =
      q400 * 146097 + q100 * 36524 + q4 * 1461 + q1 * 365 := by
  unfold days_before_year
  omega

/-- `_days_before_year` at the last day of a 4-year cycle that is not a
century boundary. -/
theorem days_before_year_leap_end (q400 q100 q4 : Nat)
    (h100 : q100 ≤ 3) (h4 : q4 ≤ 23) :
    days_before_year (q400 * 400 + q100 * 100 + q4 * 4 + 4) =
      q400 * 146097 + q100 * 36524 + q4 * 1461 + 1095 := by
  unfold days_before_year
  omega

/-- `_days_before_year` at the last year of a 400-year cycle. -/
theorem days_before_year_400_end (q400 : Nat) :
    days_before_year (q400 * 400 + 400) = q400 * 146097 + 145731 := by
  unfold days_before_year
  omega

/-- The `leapyear` flag computed by `_ord2ymd` agrees with `_is_leap`, away
from the cycle boundaries. -/
theorem is_leap_decomp (q400 q100 q4 q1 : Nat)
    (h100 : q100 ≤ 3) (h4 : q4 ≤ 24) (h1 : q1 ≤ 3) :
    is_leap (q400 * 400 + 1 + (q100 * 100 + q4 * 4 + q1)) =
      (q1 == 3 && (q4 != 24 || q100 == 3)) := by
  by_cases hp : q1 = 3 ∧ (q4 ≠ 24 ∨ q100 = 3)
  · have h1b : (q1 == 3 && (q4 != 24 || q100 == 3)) = true := by
      simp only [Bool.and_eq_true, beq_iff_eq, Bool.or_eq_true, bne_iff_ne]
      exact hp
    rw [h1b, is_leap_iff]
    omega
  · have h1b : (q1 == 3 && (q4 != 24 || q100 == 3)) = false := by
      cases hb : (q1 == 3 && (q4 != 24 || q100 == 3))
      · rfl
      · exfalso
        apply hp
        simpa only [Bool.and_eq_true, beq_iff_eq, Bool.or_eq_true, bne_iff_ne] using hb
    rw [h1b]
    cases hl : is_leap (q400 * 400 + 1 + (q100 * 100 + q4 * 4 + q1))
    · rfl
    · exfalso
      have hm := (is_leap_iff (q400 * 400 + 1 + (q100 * 100 + q4 * 4 + q1))).mp hl
      omega

/-- Round-trip correctness of CPython `_ord2ymd` against `_ymd2ord` on the
supported ordinal range `[1, MAXORDINAL]`: the result is a valid calendar date
of year 1..9999 and its ordinal is the input. -/
theorem ord2ymd_correct (N : Nat) (hlo : 1 ≤ N) (hhi : N ≤ 3652059) :
    1 ≤ (ord2ymd N).1 ∧ (ord2ymd N).1 ≤ 9999 ∧
    1 ≤ (ord2ymd N).2.1 ∧ (ord2ymd N).2.1 ≤ 12 ∧
    1 ≤ (ord2ymd N).2.2 ∧
    (ord2ymd N).2.2 ≤ days_in_month (ord2ymd N).1 (ord2ymd N).2.1 ∧
    ymd2ord (ord2ymd N).1 (ord2ymd N).2.1 (ord2ymd N).2.2 = N := by
  unfold ord2ymd
  dsimp only
  set a := N - 1 with ha
  set n400 := a / 146097 with hn400
  set r400 := a % 146097 with hr400
  set n100 := r400 / 36524 with hn100
  set r100 := r400 % 36524 with hr100
  set n4 := r100 / 1461 with hn4
  set r4 := r100 % 1461 with hr4
  set n1 := r4 / 365 with hn1
  set r := r4 % 365 with hr
  by_cases hcond : n1 = 4 ∨ n100 = 4
  · rw [if_pos hcond]
    dsimp only
    rw [show n400 * 400 + 1 + (n100 * 100 + n4 * 4 + n1) - 1 =
      n400 * 400 + (n100 * 100 + n4 * 4 + n1) from by omega]
    have hdim12 : ∀ y : Nat, days_in_month y 12 = 31 := by
      intro y
      unfold days_in_month
      rw [if_neg (by simp)]
      rfl
    have hdbm12 : ∀ y : Nat, is_leap y = true → days_before_month y 12 = 335 := by
      intro y hy
      unfold days_before_month
      rw [if_pos ⟨by norm_num, hy⟩]
      rfl
    rcases hcond with h1eq | h100eq
    · have hb100 : n100 ≤ 3 := by omega
      have hb4 : n4 ≤ 23 := by omega
      rw [show n400 * 400 + (n100 * 100 + n4 * 4 + n1) =
        n400 * 400 + n100 * 100 + n4 * 4 + 4 from by omega]
      have hly : is_leap (n400 * 400 + n100 * 100 + n4 * 4 + 4) = true := by
        rw [is_leap_iff]
        omega
      refine ⟨by omega, by omega, by omega, by omega, by omega, ?_, ?_⟩
      · rw [hdim12]
      · show days_before_year _ + days_before_month _ 12 + 31 = N
        rw [hdbm12 _ hly, days_before_year_leap_end n400 n100 n4 hb100 hb4]
        omega
    · rw [show n400 * 400 + (n100 * 100 + n4 * 4 + n1) = n400 * 400 + 400 from by omega]
      have hly : is_leap (n400 * 400 + 400) = true := by
        rw [is_leap_iff]
        omega
      refine ⟨by omega, by omega, by omega, by omega, by omega, ?_, ?_⟩
      · rw [hdim12]
      · show days_before_year _ + days_before_month _ 12 + 31 = N
        rw [hdbm12 _ hly, days_before_year_400_end n400]
        omega
  · rw [if_neg hcond]
    dsimp only
    have hb100 : n100 ≤ 3 := by omega
    have hb4 : n4 ≤ 24 := by omega
    have hb1 : n1 ≤ 3 := by omega
    have hrlt : r < 365 := by omega
    have hleapeq := is_leap_decomp n400 n100 n4 n1 hb100 hb4 hb1
    have hdby := days_before_year_decomp n400 n100 n4 n1 hb100 hb4 hb1
    cases hlv : (n1 == 3 && (n4 != 24 || n100 == 3)) <;> rw [hlv] at hleapeq
    · obtain ⟨hm1, hm12, hd1, hdle, hsum⟩ := month_day_of_correct r hrlt false
      simp only [Bool.false_eq_true, and_false, if_false, Nat.add_zero] at hdle hsum
      refine ⟨by omega, by omega, hm1, hm12, hd1, ?_, ?_⟩
      · show _ ≤ days_in_month _ _
        unfold days_in_month
        rw [hleapeq]
        simp only [Bool.false_eq_true, and_false, if_false, Nat.add_zero]
        exact hdle
      · show days_before_year _ + days_before_month _ _ + _ = N
        unfold days_before_month
        rw [hleapeq, hdby]
        simp only [Bool.false_eq_true, and_false, if_false, Nat.add_zero]
        omega
    · obtain ⟨hm1, hm12, hd1, hdle, hsum⟩ := month_day_of_correct r hrlt true
      refine ⟨by omega, by omega, hm1, hm12, hd1, ?_, ?_⟩
      · show _ ≤ days_in_month _ _
        unfold days_in_month
        rw [hleapeq]
        exact hdle
      · show days_before_year _ + days_before_month _ _ + _ = N
        unfold days_before_month
        rw [hleapeq, hdby]
        omega

/-! ### C4 settled -/

/-- **C4, counterexample.** The claim states `convert_to_datetime` maps *every*
non-zero day offset to an ISO date string.  At offset 2936550 the target date
would be 10000-01-01, which leaves the `datetime.date` range, so
`date.__add__` raises `OverflowError` instead of returning a string. -/
theorem convert_to_datetime_overflows :
    convert_to_datetime (some 2936550) = .error .overflowError := rfl

/-- **C4, amended.** A null and a zero day offset yield null; every other day
offset whose target date stays in the supported `datetime.date` range (years 1
to 9999, i.e. `-715509 ≤ d ≤ 2936549`) is mapped to the ISO-8601 calendar date
string (no time component) of a valid Gregorian date lying exactly `d` days
after the 1960-01-01 epoch, as measured by the proleptic Gregorian ordinal
`ymd2ord`; offsets outside that range raise `OverflowError`. -/
theorem convert_to_datetime_in_range :
    convert_to_datetime none = .ok none ∧
      convert_to_datetime (some 0) = .ok none ∧
      ∀ d : Int, d ≠ 0 → -715509 ≤ d → d ≤ 2936549 →
        ∃ y m day, convert_to_datetime (some d) = .ok (some (isoformat y m day)) ∧
          1 ≤ m ∧ m ≤ 12 ∧ 1 ≤ day ∧ day ≤ days_in_month y m ∧
          (ymd2ord y m day : Int) = (ymd2ord 1960 1 1 : Int) + d := by
  refine ⟨rfl, rfl, ?_⟩
  intro d hnz hlo hhi
  have hepoch : ymd2ord 1960 1 1 = 715510 := by rfl
  have hmax : MAXORDINAL = 3652059 := by rfl
  have hcond : 1 ≤ (ymd2ord 1960 1 1 : Int) + d ∧
      (ymd2ord 1960 1 1 : Int) + d ≤ (MAXORDINAL : Int) := by
    constructor <;> omega
  have htn1 : 1 ≤ ((ymd2ord 1960 1 1 : Int) + d).toNat := by omega
  have htn2 : ((ymd2ord 1960 1 1 : Int) + d).toNat ≤ 3652059 := by omega
  obtain ⟨hy1, hy2, hm1, hm2, hd1, hd2, hord⟩ :=
    ord2ymd_correct ((ymd2ord 1960 1 1 : Int) + d).toNat htn1 htn2
  refine ⟨_, _, _, ?_, hm1, hm2, hd1, hd2, ?_⟩
  · show convert_to_datetime (some d) = _
    unfold convert_to_datetime
    dsimp only
    rw [if_neg hnz, if_pos hcond]
  · omega

/-- **C4, witness.** The amended statement applied at the concrete offset
20573 (the arrival date of the notebook's displayed record 6), together with a
direct evaluation: 1960-01-01 plus 20573 days prints as `"2016-04-29"`. -/
theorem convert_to_datetime_in_range_witness :
    ((20573 : Int) ≠ 0 ∧
      ∃ y m day, convert_to_datetime (some 20573) = .ok (some (isoformat y m day)) ∧
        1 ≤ m ∧ m ≤ 12 ∧ 1 ≤ day ∧ day ≤ days_in_month y m ∧
        (ymd2ord y m day : Int) = (ymd2ord 1960 1 1 : Int) + 20573) ∧
      convert_to_datetime (some 20573) = .ok (some "2016-04-29") :=
  ⟨⟨by decide, convert_to_datetime_in_range.2.2 20573 (by decide) (by decide) (by decide)⟩,
    rfl⟩

/-! ## C10: the port resolver on a null city -/

/-- **C10, counterexample.** The claim states that a null city never yields a
null port but fails.  On an *empty* catalog the for-loop body — the only place
`city.lower()` is evaluated — never runs, so the function falls off the loop
and returns a null port without raising anything. -/
theorem city_to_port_null_empty_catalog :
    city_to_port [] none = .ok none ∧
      city_to_port [] none ≠ .error .attributeError :=
  ⟨rfl, by
    intro h
    rw [show city_to_port [] none = .ok none from rfl] at h
    exact Except.noConfusion h⟩

/-- **C10, amended.** `city_to_port` is not total: on a null city name against
a non-empty catalog, the first loop iteration evaluates `city.lower()`
(before that entry's label check) and raises `AttributeError` — port
resolution is only defined for non-null city names.  Only on an empty catalog
does the loop body never run, returning a null port instead. -/
theorem city_to_port_throws_on_null (ports : List (String × String))
    (h : ports ≠ []) : city_to_port ports none = .error .attributeError := by
  cases ports with
  | nil => exact absurd rfl h
  | cons e rest => rfl

/-- **C10, witness.** The amended statement applied at the concrete non-empty
sample catalog. -/
theorem city_to_port_throws_on_null_witness :
    samplePorts ≠ [] ∧ city_to_port samplePorts none = .error .attributeError :=
  ⟨by decide, city_to_port_throws_on_null samplePorts (by decide)⟩

end Capstone
